import Mathlib

/-!
Verification of the tool-dispatch layer of ollama-rs
(src/ollama-rs/src/generation/tools/mod.rs).

The layer is embedded shallowly:

* JSON values (serde_json::Value) become the inductive type JsonValue.
  Objects are association lists of key/value pairs; a value produced by
  parsing JSON has no duplicate keys, but the decoders below are defined
  on arbitrary lists and mirror serde at every step.
* The serde-derived decoders for ToolCallFunction, ToolType,
  ToolFunctionInfo and ToolInfo are spelled out following the semantics of
  serde derive over serde_json::Value: a struct decodes from a JSON object
  (fields by name, unknown fields ignored, a duplicate slot is an error,
  a missing field is an error) or from a JSON array (fields by position,
  trailing elements are an error); the single-variant enum ToolType
  decodes from the string form or the single-entry map form.
  The schemars Schema type decodes from exactly the boolean and object
  values and carries the decoded value verbatim (Schema.to_value).
* The three-tier payload normalizer is the match expression at the top of
  the generated ToolHolder::call; the holder itself becomes holderCall
  over an explicit tool model (decoder plus state-passing call function,
  mirroring the &mut self receiver of Tool::call).
-/

set_option autoImplicit false

namespace OllamaTools

/-- JSON values as seen by the tool-dispatch layer (serde_json::Value).
Numbers are modelled as integers; no part of this layer inspects a
number's value, so the representation of the numeric leaf is irrelevant
to every property proved below. -/
inductive JsonValue where
  | null
  | bool (b : Bool)
  | num (n : Int)
  | str (s : String)
  | arr (items : List JsonValue)
  | obj (fields : List (String × JsonValue))

/-- Decoding a Rust String field from a JSON value: only a JSON string
succeeds (serde_json String deserialization). -/
def asString : JsonValue → Except String String
  | .str s => .ok s
  | _ => .error "invalid type: expected a string"

/-- ToolCallFunction: name plus the raw arguments value.
The arguments field carries serde(alias = "parameters"). -/
structure ToolCallFunction where
  name : String
  arguments : JsonValue

/-- Field loop of the serde-derived map decoder for ToolCallFunction:
walk the entries, filling the name slot and the arguments slot (the keys
"arguments" and "parameters" both map to the arguments slot, per the
serde alias); a second hit on a filled slot is a duplicate-field error,
unknown keys are ignored, and a missing field is reported in declaration
order once the entries are exhausted. -/
def toolCallFunctionFromFields :
    List (String × JsonValue) → Option String → Option JsonValue →
    Except String ToolCallFunction
  | [], name?, args? =>
    match name? with
    | none => .error "missing field name"
    | some n =>
      match args? with
      | none => .error "missing field arguments"
      | some a => .ok ⟨n, a⟩
  | (k, v) :: rest, name?, args? =>
    if k = "name" then
      match name? with
      | some _ => .error "duplicate field name"
      | none =>
        match asString v with
        | .error e => .error e
        | .ok s => toolCallFunctionFromFields rest (some s) args?
    else if k = "arguments" ∨ k = "parameters" then
      match args? with
      | some _ => .error "duplicate field arguments"
      | none => toolCallFunctionFromFields rest name? (some v)
    else
      toolCallFunctionFromFields rest name? args?

/-- serde_json::from_value for ToolCallFunction: a JSON object decodes by
field name, a JSON array decodes positionally (exactly two elements),
everything else is a type error. -/
def decodeToolCallFunction : JsonValue → Except String ToolCallFunction
  | .obj fields => toolCallFunctionFromFields fields none none
  | .arr [v₀, v₁] =>
    match asString v₀ with
    | .error e => .error e
    | .ok n => .ok ⟨n, v₁⟩
  | .arr _ => .error "invalid length for struct ToolCallFunction"
  | _ => .error "invalid type: expected struct ToolCallFunction"

/-- ToolType: single-variant enum, renamed to lowercase on the wire. -/
inductive ToolType where
  | Function
  deriving DecidableEq

/-- serde_json::from_value for ToolType: the string "function", or the
single-entry map form with a null payload for the unit variant. -/
def decodeToolType : JsonValue → Except String ToolType
  | .str s => if s = "function" then .ok .Function else .error "unknown variant"
  | .obj [(k, v)] =>
    if k = "function" then
      match v with
      | .null => .ok .Function
      | _ => .error "invalid type: expected unit"
    else .error "unknown variant"
  | .obj _ => .error "expected a map with a single key"
  | _ => .error "invalid type: expected enum ToolType"

/-- Serialization of ToolType (serde rename_all = "lowercase"). -/
def serializeToolType : ToolType → JsonValue
  | .Function => .str "function"

/-- The values schemars accepts as a Schema: a JSON Schema document is a
boolean or an object. -/
def isSchemaValue : JsonValue → Bool
  | .bool _ => true
  | .obj _ => true
  | _ => false

/-- Deserialization of schemars::Schema: the value is kept verbatim
(Schema.to_value returns it unchanged), but only booleans and objects are
accepted. -/
def decodeSchema (v : JsonValue) : Except String JsonValue :=
  if isSchemaValue v then .ok v
  else .error "a JSON Schema must be an object or a boolean"

/-- ToolFunctionInfo: name, description and the parameter schema.
The schema is modelled by its underlying JSON value; validity
(boolean-or-object) is enforced by decodeSchema on the way in. -/
structure ToolFunctionInfo where
  name : String
  description : String
  parameters : JsonValue

/-- Field loop of the serde-derived map decoder for ToolFunctionInfo. -/
def toolFunctionInfoFromFields :
    List (String × JsonValue) → Option String → Option String → Option JsonValue →
    Except String ToolFunctionInfo
  | [], name?, desc?, params? =>
    match name? with
    | none => .error "missing field name"
    | some n =>
      match desc? with
      | none => .error "missing field description"
      | some d =>
        match params? with
        | none => .error "missing field parameters"
        | some p => .ok ⟨n, d, p⟩
  | (k, v) :: rest, name?, desc?, params? =>
    if k = "name" then
      match name? with
      | some _ => .error "duplicate field name"
      | none =>
        match asString v with
        | .error e => .error e
        | .ok s => toolFunctionInfoFromFields rest (some s) desc? params?
    else if k = "description" then
      match desc? with
      | some _ => .error "duplicate field description"
      | none =>
        match asString v with
        | .error e => .error e
        | .ok s => toolFunctionInfoFromFields rest name? (some s) params?
    else if k = "parameters" then
      match params? with
      | some _ => .error "duplicate field parameters"
      | none =>
        match decodeSchema v with
        | .error e => .error e
        | .ok p => toolFunctionInfoFromFields rest name? desc? (some p)
    else
      toolFunctionInfoFromFields rest name? desc? params?

/-- serde_json::from_value for ToolFunctionInfo. -/
def decodeToolFunctionInfo : JsonValue → Except String ToolFunctionInfo
  | .obj fields => toolFunctionInfoFromFields fields none none none
  | .arr [v₀, v₁, v₂] =>
    match asString v₀ with
    | .error e => .error e
    | .ok n =>
      match asString v₁ with
      | .error e => .error e
      | .ok d =>
        match decodeSchema v₂ with
        | .error e => .error e
        | .ok p => .ok ⟨n, d, p⟩
  | .arr _ => .error "invalid length for struct ToolFunctionInfo"
  | _ => .error "invalid type: expected struct ToolFunctionInfo"

/-- ToolInfo: the advertised descriptor; tool_type is serialized under
the wire key "type". -/
structure ToolInfo where
  tool_type : ToolType
  function : ToolFunctionInfo

/-- Field loop of the serde-derived map decoder for ToolInfo (wire keys
"type" and "function"). -/
def toolInfoFromFields :
    List (String × JsonValue) → Option ToolType → Option ToolFunctionInfo →
    Except String ToolInfo
  | [], type?, fn? =>
    match type? with
    | none => .error "missing field type"
    | some t =>
      match fn? with
      | none => .error "missing field function"
      | some f => .ok ⟨t, f⟩
  | (k, v) :: rest, type?, fn? =>
    if k = "type" then
      match type? with
      | some _ => .error "duplicate field type"
      | none =>
        match decodeToolType v with
        | .error e => .error e
        | .ok t => toolInfoFromFields rest (some t) fn?
    else if k = "function" then
      match fn? with
      | some _ => .error "duplicate field function"
      | none =>
        match decodeToolFunctionInfo v with
        | .error e => .error e
        | .ok f => toolInfoFromFields rest type? (some f)
    else
      toolInfoFromFields rest type? fn?

/-- serde_json::from_value for ToolInfo. -/
def decodeToolInfo : JsonValue → Except String ToolInfo
  | .obj fields => toolInfoFromFields fields none none
  | .arr [v₀, v₁] =>
    match decodeToolType v₀ with
    | .error e => .error e
    | .ok t =>
      match decodeToolFunctionInfo v₁ with
      | .error e => .error e
      | .ok f => .ok ⟨t, f⟩
  | .arr _ => .error "invalid length for struct ToolInfo"
  | _ => .error "invalid type: expected struct ToolInfo"

/-- Serialization of ToolFunctionInfo (fields in declaration order; the
schema serializes as its underlying value). -/
def serializeToolFunctionInfo (f : ToolFunctionInfo) : JsonValue :=
  .obj [("name", .str f.name), ("description", .str f.description),
        ("parameters", f.parameters)]

/-- Serialization of ToolInfo (the tool_type field under the wire key
"type"). -/
def serializeToolInfo (ti : ToolInfo) : JsonValue :=
  .obj [("type", serializeToolType ti.tool_type),
        ("function", serializeToolFunctionInfo ti.function)]

/-- The three-tier payload normalizer at the top of the generated
ToolHolder::call: first try ToolCallFunction (keeping its arguments
value), then the full ToolInfo envelope (keeping the literal value of
function.parameters), else fall back to the raw value itself. It is a
total function: no input is rejected. -/
def normalizeToolPayload (parameters : JsonValue) : JsonValue :=
  match decodeToolCallFunction parameters with
  | .ok tcf => tcf.arguments
  | .error _ =>
    match decodeToolInfo parameters with
    | .ok ti => ti.function.parameters
    | .error _ => parameters

/-- Errors produced by the type-erased holder call: the decode error from
step 2 (the ? on serde_json::from_value(param_value)) or the error
returned by the underlying tool's own call. Both travel to the dispatch
caller inside the same Result. -/
inductive CallError where
  | decodeError (msg : String)
  | toolError (msg : String)

/-- Model of a typed Tool implementation: its parameter decoder
(serde_json::from_value into Tool::Params) and its call function.
Tool::call takes &mut self, so the call is modelled in explicit
state-passing style over the tool's own state S. -/
structure ToolModel (P S : Type) where
  decode : JsonValue → Except String P
  call : P → S → Except String String × S

/-- The generated ToolHolder::call for a typed tool T: normalize the raw
payload, decode it into T::Params (a failure propagates as an error and
the tool is left untouched), then invoke T::call once with the decoded
value and return its result unchanged. -/
def holderCall {P S : Type} (tool : ToolModel P S) (parameters : JsonValue)
    (s : S) : Except CallError String × S :=
  let param_value := normalizeToolPayload parameters
  match tool.decode param_value with
  | .error e => (.error (.decodeError e), s)
  | .ok param =>
    match tool.call param s with
    | (.ok out, s') => (.ok out, s')
    | (.error e, s') => (.error (.toolError e), s')

/-- ToolHolder::call for DynamicToolHolder: Box::pin((self.handler)(parameters)).
The handler (an FnMut closure, hence the explicit state S) is applied to
the raw payload as received; nothing else happens. -/
def dynamicHolderCall {S : Type}
    (handler : JsonValue → S → Except String String × S)
    (parameters : JsonValue) (s : S) : Except String String × S :=
  handler parameters s

/-- The value the typed holder hands to the tool's parameter decoder:
the normalized payload (param_value in the source). -/
def typedDecoderInput (parameters : JsonValue) : JsonValue :=
  normalizeToolPayload parameters

/-- The value the dynamic holder hands to its handler: the raw payload
itself. -/
def dynamicHandlerInput (parameters : JsonValue) : JsonValue :=
  parameters

/-- ToolFunctionInfo::from_dynamic: store the caller-supplied name,
description and schema directly. -/
def ToolFunctionInfo.from_dynamic (name description : String)
    (parameters : JsonValue) : ToolFunctionInfo :=
  { name := name, description := description, parameters := parameters }

/-- ToolInfo::from_dynamic: tool_type is Function and the function field
is ToolFunctionInfo::from_dynamic of the same three inputs. -/
def ToolInfo.from_dynamic (name description : String)
    (parameters : JsonValue) : ToolInfo :=
  { tool_type := ToolType.Function,
    function := ToolFunctionInfo.from_dynamic name description parameters }

/-- The canonical tier-1 wire shape with the field name "arguments". -/
def argumentsPayload (name : String) (x : JsonValue) : JsonValue :=
  .obj [("name", .str name), ("arguments", x)]

/-- The tier-1 wire shape using the alias field name "parameters". -/
def parametersPayload (name : String) (x : JsonValue) : JsonValue :=
  .obj [("name", .str name), ("parameters", x)]

/-- The tier-2 wire shape: a full ToolInfo envelope whose
function.parameters field carries the literal call arguments x. -/
def toolInfoEnvelope (name description : String) (x : JsonValue) : JsonValue :=
  .obj [("type", .str "function"),
        ("function", .obj [("name", .str name),
                           ("description", .str description),
                           ("parameters", x)])]

/-! Basic evaluation lemmas for the normalizer on the three wire shapes. -/

/-- Tier 1 succeeds on the canonical arguments form and extracts the
arguments value, whatever the name and payload are. -/
theorem decodeToolCallFunction_argumentsPayload (n : String) (x : JsonValue) :
    decodeToolCallFunction (argumentsPayload n x) = .ok ⟨n, x⟩ := rfl

/-- Tier 1 also succeeds on the alias form, filling the same arguments
slot. -/
theorem decodeToolCallFunction_parametersPayload (n : String) (x : JsonValue) :
    decodeToolCallFunction (parametersPayload n x) = .ok ⟨n, x⟩ := rfl

/-- The normalizer on the canonical arguments form yields the arguments
value. -/
theorem normalizeToolPayload_argumentsPayload (n : String) (x : JsonValue) :
    normalizeToolPayload (argumentsPayload n x) = x := rfl

/-- The normalizer on the alias form yields the arguments value. -/
theorem normalizeToolPayload_parametersPayload (n : String) (x : JsonValue) :
    normalizeToolPayload (parametersPayload n x) = x := rfl

/-- Tier 1 fails on a full envelope: it has no name field. -/
theorem decodeToolCallFunction_toolInfoEnvelope (n d : String) (x : JsonValue) :
    decodeToolCallFunction (toolInfoEnvelope n d x) = .error "missing field name" := rfl

/-- Tier 2 succeeds on a full envelope whenever the carried value is
schema-shaped (a boolean or an object), reproducing it verbatim in
function.parameters. -/
theorem decodeToolInfo_toolInfoEnvelope (n d : String) (x : JsonValue)
    (hx : isSchemaValue x = true) :
    decodeToolInfo (toolInfoEnvelope n d x) = .ok ⟨.Function, ⟨n, d, x⟩⟩ := by
  simp [toolInfoEnvelope, decodeToolInfo, toolInfoFromFields, decodeToolType,
        decodeToolFunctionInfo, toolFunctionInfoFromFields, asString, decodeSchema, hx]

/-- The normalizer on a full envelope (carrying a schema-shaped value)
yields the literal value of function.parameters. -/
theorem normalizeToolPayload_toolInfoEnvelope (n d : String) (x : JsonValue)
    (hx : isSchemaValue x = true) :
    normalizeToolPayload (toolInfoEnvelope n d x) = x := by
  simp only [normalizeToolPayload, decodeToolCallFunction_toolInfoEnvelope,
             decodeToolInfo_toolInfoEnvelope n d x hx]

/-! Claim theorems. -/

/-- C1: for every JSON payload that decodes as a ToolCallFunction-shaped
value (name plus arguments X), the normalizer yields exactly X, the value
of the arguments field, as the payload handed to the tool's decoder. -/
theorem normalizer_yields_arguments_of_toolCallFunction
    (v : JsonValue) (tcf : ToolCallFunction)
    (h : decodeToolCallFunction v = .ok tcf) :
    normalizeToolPayload v = tcf.arguments := by
  simp [normalizeToolPayload, h]

/-- C1 witness: the scenario payload for get_weather. -/
theorem normalizer_yields_arguments_of_toolCallFunction_witness :
    normalizeToolPayload
        (argumentsPayload "get_weather" (.obj [("city", .str "Tokyo")])) =
      JsonValue.obj [("city", JsonValue.str "Tokyo")] :=
  normalizer_yields_arguments_of_toolCallFunction _
    ⟨"get_weather", JsonValue.obj [("city", JsonValue.str "Tokyo")]⟩ rfl

/-- C2: for every payload using the alias field name "parameters", the
decoder produces the same ToolCallFunction as the "arguments" form (both
field names fill the same logical field), and the normalizer yields
exactly the carried value, identical to the arguments form. -/
theorem normalizer_parameters_alias_equivalence (n : String) (x : JsonValue) :
    decodeToolCallFunction (parametersPayload n x) =
      decodeToolCallFunction (argumentsPayload n x) ∧
    normalizeToolPayload (parametersPayload n x) = x ∧
    normalizeToolPayload (parametersPayload n x) =
      normalizeToolPayload (argumentsPayload n x) :=
  ⟨rfl, rfl, rfl⟩

/-- C3: a full ToolInfo envelope fails the tier-1 decode, decodes as a
ToolInfo whose function.parameters holds the carried value verbatim, and
the normalizer yields exactly that literal value. -/
theorem normalizer_yields_envelope_function_parameters
    (n d : String) (x : JsonValue) (hx : isSchemaValue x = true) :
    (∃ e, decodeToolCallFunction (toolInfoEnvelope n d x) = .error e) ∧
    decodeToolInfo (toolInfoEnvelope n d x) =
      .ok ⟨ToolType.Function, ⟨n, d, x⟩⟩ ∧
    normalizeToolPayload (toolInfoEnvelope n d x) = x :=
  ⟨⟨_, decodeToolCallFunction_toolInfoEnvelope n d x⟩,
   decodeToolInfo_toolInfoEnvelope n d x hx,
   normalizeToolPayload_toolInfoEnvelope n d x hx⟩

/-- C3 witness: an envelope carrying an object payload. -/
theorem normalizer_yields_envelope_function_parameters_witness :
    isSchemaValue (JsonValue.obj [("city", JsonValue.str "Tokyo")]) = true ∧
    normalizeToolPayload
        (toolInfoEnvelope "get_weather" "Gets the weather"
          (.obj [("city", .str "Tokyo")])) =
      JsonValue.obj [("city", JsonValue.str "Tokyo")] :=
  ⟨rfl,
   (normalizer_yields_envelope_function_parameters "get_weather"
      "Gets the weather" (.obj [("city", .str "Tokyo")]) rfl).2.2⟩

/-- C4: a value decoding as neither the ToolCallFunction shape nor the
ToolInfo envelope is returned unchanged by the normalizer (identity
fallback); the normalizer is a total function into JsonValue, so
normalization itself has no error outcome for any input. -/
theorem normalizer_identity_fallback (v : JsonValue) (e₁ e₂ : String)
    (h₁ : decodeToolCallFunction v = .error e₁)
    (h₂ : decodeToolInfo v = .error e₂) :
    normalizeToolPayload v = v := by
  simp [normalizeToolPayload, h₁, h₂]

/-- C4 witness: the unwrapped scenario payload for a search tool, which
matches neither shape. -/
theorem normalizer_identity_fallback_witness :
    decodeToolCallFunction (JsonValue.obj [("query", JsonValue.str "rust")]) =
      .error "missing field name" ∧
    decodeToolInfo (JsonValue.obj [("query", JsonValue.str "rust")]) =
      .error "missing field type" ∧
    normalizeToolPayload (JsonValue.obj [("query", JsonValue.str "rust")]) =
      JsonValue.obj [("query", JsonValue.str "rust")] :=
  ⟨rfl, rfl,
   normalizer_identity_fallback (JsonValue.obj [("query", JsonValue.str "rust")])
     "missing field name" "missing field type" rfl rfl⟩

/-- A concrete typed tool used in witnesses: parameters are an object
with a single city field, the call returns a weather string, and the
tool's own state records every parameter value it is invoked with. -/
def weatherTool : ToolModel String (List String) where
  decode := fun v =>
    match v with
    | .obj [("city", .str c)] => .ok c
    | _ => .error "missing field city"
  call := fun c trace => (.ok ("sunny in " ++ c), trace ++ [c])

/-- C5: when the normalized payload decodes into the tool's parameter
type as p, the holder invokes the underlying tool exactly once, with
exactly p, from the current tool state: the result and successor state
are those of that single call, the string result unchanged on success. -/
theorem holderCall_invokes_tool_once_with_decoded_value {P S : Type}
    (tool : ToolModel P S) (raw : JsonValue) (s : S) (p : P)
    (h : tool.decode (normalizeToolPayload raw) = .ok p) :
    holderCall tool raw s =
      ((tool.call p s).1.mapError CallError.toolError, (tool.call p s).2) := by
  simp only [holderCall, h]
  rcases hc : tool.call p s with ⟨r, s'⟩
  cases r <;> simp [Except.mapError]

/-- C5 witness: the get_weather scenario; the invocation trace shows the
tool ran exactly once, with the decoded city. -/
theorem holderCall_invokes_tool_once_with_decoded_value_witness :
    holderCall weatherTool
        (argumentsPayload "get_weather" (.obj [("city", .str "Tokyo")])) [] =
      (Except.ok "sunny in Tokyo", ["Tokyo"]) :=
  (holderCall_invokes_tool_once_with_decoded_value weatherTool
      (argumentsPayload "get_weather" (.obj [("city", .str "Tokyo")]))
      [] "Tokyo" rfl).trans rfl

/-- C6: when the normalized payload fails to decode into the tool's
parameter type, the holder returns the decode error (as an error, not a
model-visible string) and leaves the tool state untouched; the outcome is
the same for every possible underlying call function, so the tool is
never invoked. -/
theorem holderCall_decode_failure_never_invokes_tool {P S : Type}
    (tool : ToolModel P S) (raw : JsonValue) (s : S) (e : String)
    (h : tool.decode (normalizeToolPayload raw) = .error e) :
    holderCall tool raw s = (.error (.decodeError e), s) ∧
    ∀ call' : P → S → Except String String × S,
      holderCall ⟨tool.decode, call'⟩ raw s = (.error (.decodeError e), s) := by
  refine ⟨?_, fun call' => ?_⟩ <;> simp [holderCall, h]

/-- C6 witness: a payload whose normalized form lacks the city field;
the trace stays empty. -/
theorem holderCall_decode_failure_never_invokes_tool_witness :
    holderCall weatherTool (JsonValue.obj [("q", JsonValue.str "rust")]) [] =
      (Except.error (CallError.decodeError "missing field city"),
       ([] : List String)) :=
  (holderCall_decode_failure_never_invokes_tool weatherTool
      (JsonValue.obj [("q", JsonValue.str "rust")]) [] "missing field city"
      rfl).1

/-- C7 counterexample: for the wrapped payload with name get_weather and
arguments an object, the dynamic holder's handler receives the whole
wrapper while a typed tool's decoder receives only the inner arguments
object, so the two received values differ. -/
theorem dynamic_handler_input_differs_from_typed_decoder_input :
    dynamicHandlerInput
        (argumentsPayload "get_weather" (.obj [("city", .str "Tokyo")])) ≠
      typedDecoderInput
        (argumentsPayload "get_weather" (.obj [("city", .str "Tokyo")])) := by
  intro h
  simp only [dynamicHandlerInput, typedDecoderInput,
             normalizeToolPayload_argumentsPayload, argumentsPayload] at h
  injection h with hfields
  injection hfields with hhead _
  injection hhead with hkey _
  exact absurd hkey (by decide)

/-- C7 (amended): the dynamic adapter performs no normalization and only
forwards the raw JSON payload to the handler; hence the handler receives
the same value a typed tool's decoder would receive exactly for those
payloads on which the normalizer is the identity (tier-3 fallback), not
for every payload. -/
theorem dynamicHolder_forwards_raw_payload {S : Type}
    (handler : JsonValue → S → Except String String × S)
    (raw : JsonValue) (s : S) :
    dynamicHolderCall handler raw s = handler raw s ∧
    dynamicHandlerInput raw = raw ∧
    (dynamicHandlerInput raw = typedDecoderInput raw ↔
      normalizeToolPayload raw = raw) := by
  refine ⟨rfl, rfl, ?_⟩
  simp [dynamicHandlerInput, typedDecoderInput, eq_comm]

/-- C8: serializing a ToolInfo descriptor and parsing it back reproduces
the same descriptor, and the type field is always serialized as the
literal lowercase string "function" (the only variant). -/
theorem toolInfo_serialize_parse_roundtrip (ti : ToolInfo)
    (h : isSchemaValue ti.function.parameters = true) :
    decodeToolInfo (serializeToolInfo ti) = .ok ti ∧
    serializeToolType ti.tool_type = .str "function" := by
  obtain ⟨tt, n, d, p⟩ := ti
  cases tt
  refine ⟨?_, rfl⟩
  simp [serializeToolInfo, serializeToolFunctionInfo, serializeToolType,
        decodeToolInfo, toolInfoFromFields, decodeToolType,
        decodeToolFunctionInfo, toolFunctionInfoFromFields, asString,
        decodeSchema, h]

/-- C8 witness: a concrete descriptor with an object schema. -/
theorem toolInfo_serialize_parse_roundtrip_witness :
    isSchemaValue
        (ToolInfo.from_dynamic "search" "Web search"
          (.obj [("type", .str "object")])).function.parameters = true ∧
    decodeToolInfo
        (serializeToolInfo
          (ToolInfo.from_dynamic "search" "Web search"
            (.obj [("type", .str "object")]))) =
      .ok (ToolInfo.from_dynamic "search" "Web search"
            (.obj [("type", .str "object")])) :=
  ⟨rfl,
   (toolInfo_serialize_parse_roundtrip
      (ToolInfo.from_dynamic "search" "Web search"
        (.obj [("type", .str "object")])) rfl).1⟩

/-- C9: ToolInfo.from_dynamic builds the descriptor directly from the
caller-supplied name, description and schema: tool_type is Function and
the function field is exactly those three values, with no
schema-generation step and no compile-time parameter type involved. -/
theorem toolInfo_from_dynamic_direct_construction
    (n d : String) (s : JsonValue) :
    ToolInfo.from_dynamic n d s =
      { tool_type := ToolType.Function,
        function := { name := n, description := d, parameters := s } } := rfl

/-- C10: the typed holder never inspects the name carried inside a
wrapped payload: two payloads with the same arguments value and arbitrary
(possibly empty or mismatching) names normalize identically and dispatch
identically for every tool. -/
theorem holder_dispatch_independent_of_payload_name {P S : Type}
    (tool : ToolModel P S) (n₁ n₂ : String) (x : JsonValue) (s : S) :
    normalizeToolPayload (argumentsPayload n₁ x) =
      normalizeToolPayload (argumentsPayload n₂ x) ∧
    holderCall tool (argumentsPayload n₁ x) s =
      holderCall tool (argumentsPayload n₂ x) s :=
  ⟨rfl, rfl⟩

end OllamaTools
